import Mathlib

/-!
Verification development for the Tienda_online repository.

The Python sources are shallowly embedded: each in-memory dictionary
(`Dict[...]`) becomes an insertion-ordered association list, each class
becomes a structure, and each method that mutates `self` becomes a function
returning the new state.  Exceptions (`ValueError`) become `Except` results
that also carry the post-state, because a raised Python exception leaves
all mutations performed so far in place.  Fresh values that Python draws
from the environment (uuid4, datetime.now, bcrypt.gensalt) are threaded as
explicit parameters.  Floats used for prices are modelled as rationals.
-/

namespace Tienda

/-- Lookup in a Python dict modelled as an association list (first match,
as Python dict keys are unique; defined for arbitrary lists). -/
def dictGet {α β : Type} [DecidableEq α] (k : α) : List (α × β) → Option β
  | [] => none
  | (k', v) :: rest => if k' = k then some v else dictGet k rest

/-- Assignment `d[k] = v` on a Python dict modelled as an association list:
replace the first binding of `k`, or append a fresh binding. -/
def dictSet {α β : Type} [DecidableEq α] (k : α) (v : β) : List (α × β) → List (α × β)
  | [] => [(k, v)]
  | (k', v') :: rest => if k' = k then (k, v) :: rest else (k', v') :: dictSet k v rest

/-- Python ValueError, identified by its message. -/
structure ValueError where
  msg : String
deriving DecidableEq, Repr

/-! ## models/Producto.py -/

/-- Variant payload distinguishing the three product classes.  Fields are
optional because Python performs no type enforcement: passing `None` to a
constructor simply stores `None`. -/
inductive Variante where
  | generico : Variante
  | electronico (garantiaMeses : Option Int) : Variante
  | ropa (talla color : Option String) : Variante
deriving DecidableEq, Repr

/-- A product record: `Producto` and its two subclasses flattened into one
structure tagged by `variante`.  `id` stands for the uuid4 string. -/
structure Producto where
  id : Nat
  nombre : String
  precio : ℚ
  stock : Int
  variante : Variante
deriving DecidableEq, Repr

/-- Constructor of the base class `Producto` (no validation in the source). -/
def mkProducto (id : Nat) (nombre : String) (precio : ℚ) (stock : Int) : Producto :=
  ⟨id, nombre, precio, stock, Variante.generico⟩

/-- Constructor of `ProductoElectronico`: assigns `garantia_meses` with no
validation, so a null (`none`) warranty is stored as-is. -/
def mkProductoElectronico (id : Nat) (nombre : String) (precio : ℚ) (stock : Int)
    (garantiaMeses : Option Int) : Producto :=
  ⟨id, nombre, precio, stock, Variante.electronico garantiaMeses⟩

/-- Constructor of `ProductoRopa`: assigns `talla` and `color` with no
validation, so null values are stored as-is. -/
def mkProductoRopa (id : Nat) (nombre : String) (precio : ℚ) (stock : Int)
    (talla color : Option String) : Producto :=
  ⟨id, nombre, precio, stock, Variante.ropa talla color⟩

/-- Producto.hay_stock: stock is sufficient for the requested quantity. -/
def Producto.hay_stock (p : Producto) (cantidad : Int) : Bool :=
  cantidad ≤ p.stock

/-- Producto.actualizar_stock: adds a (positive or negative) delta to stock. -/
def Producto.actualizar_stock (p : Producto) (cantidad : Int) : Producto :=
  { p with stock := p.stock + cantidad }

/-! ## models/Usuario.py -/

/-- Dynamic class of a user object: base `Usuario`, `Cliente` or
`Administrador`. -/
inductive Rol where
  | base : Rol
  | cliente : Rol
  | administrador : Rol
deriving DecidableEq, Repr

/-- Symbolic model of a bcrypt hash: `bcrypt.hashpw(password, salt)` is
injective in both arguments and `bcrypt.checkpw` recovers the comparison,
so the hash is modelled as the pair it determines. -/
structure Hash where
  password : String
  salt : Nat
deriving DecidableEq, Repr

/-- A user record: `Usuario` and its two subclasses flattened into one
structure tagged by `rol`; `direccion` is set for `Cliente` instances. -/
structure Usuario where
  id : Nat
  nombre : String
  email : String
  username : Option String
  hashedPassword : Option Hash
  rol : Rol
  direccion : Option String
deriving DecidableEq, Repr

/-! ## models/Pedido.py -/

/-- An order.  In Python `self.productos` maps `Producto` objects to
quantities; products live in the catalog and stay mutable afterwards, so
the order stores references, modelled here as product ids.  `fecha` stands
for the `datetime.now()` timestamp. -/
structure Pedido where
  id : Nat
  fecha : Nat
  cliente : Nat
  productos : List (Nat × Int)
deriving DecidableEq, Repr

/-- Price of the product object referenced by `pid`, read from the live
catalog (the products are never removed in the modelled flows, so the
catalog is the object heap; the 0 fallback is never reached). -/
def precioDe (catalogo : List (Nat × Producto)) (pid : Nat) : ℚ :=
  match dictGet pid catalogo with
  | some p => p.precio
  | none => 0

/-- Total of a list of line items against the live catalog. -/
def totalItems (catalogo : List (Nat × Producto)) (items : List (Nat × Int)) : ℚ :=
  (items.map (fun it => precioDe catalogo it.1 * (it.2 : ℚ))).sum

/-- Pedido.calcular_total: sum of `p.precio * c` over the line items, where
`p.precio` is read from the shared product objects at call time. -/
def Pedido.calcular_total (ped : Pedido) (catalogo : List (Nat × Producto)) : ℚ :=
  totalItems catalogo ped.productos

/-! ## services/Tienda_service.py -/

/-- The mutable state of `TiendaService`. -/
structure TiendaService where
  usuarios : List (Nat × Usuario)
  productos : List (Nat × Producto)
  pedidos : List Pedido
deriving DecidableEq, Repr

/-- TiendaService.agregar_producto: insert into the catalog keyed by the
product's own id. -/
def agregar_producto (s : TiendaService) (p : Producto) : TiendaService :=
  { s with productos := dictSet p.id p s.productos }

/-- The loop body of `realizar_pedido`: for each line item in insertion
order, fail if the product id is absent, fail if stock is insufficient,
otherwise decrement the stock immediately and record the item.  On failure
the catalog mutated so far is returned, exactly as a raised `ValueError`
leaves `self.productos` in Python. -/
def pedidoLoop : List (Nat × Producto) → List (Nat × Int) → List (Nat × Int) →
    Except ValueError (List (Nat × Int)) × List (Nat × Producto)
  | catalogo, acc, [] => (Except.ok acc.reverse, catalogo)
  | catalogo, acc, (pid, cantidad) :: rest =>
    match dictGet pid catalogo with
    | none => (Except.error ⟨"Producto " ++ toString pid ++ " no existe"⟩, catalogo)
    | some producto =>
      if producto.hay_stock cantidad then
        pedidoLoop (dictSet pid (producto.actualizar_stock (-cantidad)) catalogo)
          ((pid, cantidad) :: acc) rest
      else
        (Except.error ⟨"No hay stock suficiente de " ++ producto.nombre⟩, catalogo)

/-- TiendaService.realizar_pedido.  A single check rejects both an absent
client id and one resolving to a non-`Cliente` instance, raising the same
`ValueError("Cliente no encontrado")`.  The line items are then processed
by `pedidoLoop`; only after all of them pass is the `Pedido` constructed
and appended.  `pedidoId` and `fecha` stand for uuid4 and datetime.now(). -/
def realizar_pedido (s : TiendaService) (clienteId : Nat)
    (productosCantidades : List (Nat × Int)) (pedidoId : Nat) (fecha : Nat) :
    Except ValueError Pedido × TiendaService :=
  match dictGet clienteId s.usuarios with
  | none => (Except.error ⟨"Cliente no encontrado"⟩, s)
  | some u =>
    if u.rol = Rol.cliente then
      match pedidoLoop s.productos [] productosCantidades with
      | (Except.error e, cat') => (Except.error e, { s with productos := cat' })
      | (Except.ok items, cat') =>
        let pedido : Pedido := ⟨pedidoId, fecha, clienteId, items⟩
        (Except.ok pedido,
          { s with productos := cat', pedidos := s.pedidos ++ [pedido] })
    else
      (Except.error ⟨"Cliente no encontrado"⟩, s)

/-! ## services/Auth_service.py -/

/-- bcrypt.hashpw with an explicit salt (bcrypt.gensalt() is threaded in
as a parameter); symbolic model, see `Hash`. -/
def hashpw (password : String) (salt : Nat) : Hash :=
  ⟨password, salt⟩

/-- bcrypt.checkpw: the stored hash matches exactly when it was produced
from the same password (with its own embedded salt). -/
def checkpw (password : String) (h : Hash) : Bool :=
  h.password == password

/-- AuthService.hash_password. -/
def hash_password (password : String) (salt : Nat) : Hash :=
  hashpw password salt

/-- AuthService.verify_password. -/
def verify_password (plainPassword : String) (hashedPassword : Hash) : Bool :=
  checkpw plainPassword hashedPassword

/-- The mutable state of `AuthService`: the three user indices. -/
structure AuthService where
  users : List (Nat × Usuario)
  usersByUsername : List (String × Usuario)
  usersByEmail : List (String × Usuario)
deriving DecidableEq, Repr

/-- AuthService.create_user: reject a duplicate username, then a duplicate
email (both by exact dict-key lookup), each before any mutation; otherwise
hash the password, build a base `Usuario` and insert it into all three
indices.  `freshId` and `salt` stand for uuid4 and bcrypt.gensalt(). -/
def create_user (s : AuthService) (username email password : String)
    (freshId : Nat) (salt : Nat) : Except ValueError Usuario × AuthService :=
  if (dictGet username s.usersByUsername).isSome then
    (Except.error ⟨"El nombre de usuario " ++ username ++ " ya está registrado"⟩, s)
  else if (dictGet email s.usersByEmail).isSome then
    (Except.error ⟨"El email " ++ email ++ " ya está registrado"⟩, s)
  else
    let hashedPassword := hash_password password salt
    let user : Usuario :=
      ⟨freshId, username, email, some username, some hashedPassword, Rol.base, none⟩
    (Except.ok user,
      { users := dictSet freshId user s.users,
        usersByUsername := dictSet username user s.usersByUsername,
        usersByEmail := dictSet email user s.usersByEmail })

/-- AuthService.authenticate_user: returns the user if the username is
known and the password matches, `none` otherwise (never raises).  Users in
`usersByUsername` are only ever inserted by `create_user` and thus always
carry a hash; the `none` hash branch is unreachable in program states. -/
def authenticate_user (s : AuthService) (username password : String) : Option Usuario :=
  match dictGet username s.usersByUsername with
  | none => none
  | some user =>
    match user.hashedPassword with
    | none => none
    | some h => if verify_password password h then some user else none

/-- A JWT payload as used by the service: the optional "sub" claim and the
"exp" instant (seconds since the epoch). -/
structure Payload where
  sub : Option String
  exp : Nat
deriving DecidableEq, Repr

/-- Symbolic model of an encoded JWT: a string either produced by
jwt.encode under some key (carrying exactly its payload), or anything else
(altered, forged without the key, or not a JWT at all). -/
inductive Token where
  | signed (key : Nat) (payload : Payload) : Token
  | malformed (data : String) : Token
deriving DecidableEq, Repr

/-- Result of jose's jwt.decode: ExpiredSignatureError is a subclass of
JWTError, so both are caught by the `except JWTError` in the source. -/
inductive JWTError where
  | invalid : JWTError
  | expired : JWTError
deriving DecidableEq, Repr

/-- jose jwt.encode under `key`. -/
def jwtEncode (payload : Payload) (key : Nat) : Token :=
  Token.signed key payload

/-- jose jwt.decode at instant `now`: rejects a token not signed with
`key`, then rejects an expired one (jose treats `exp < now` as expired, so
the token is still accepted at the instant `now = exp`). -/
def jwtDecode (token : Token) (key : Nat) (now : Nat) : Except JWTError Payload :=
  match token with
  | Token.malformed _ => Except.error JWTError.invalid
  | Token.signed k p =>
    if k = key then
      if p.exp < now then Except.error JWTError.expired else Except.ok p
    else
      Except.error JWTError.invalid

/-- ACCESS_TOKEN_EXPIRE_MINUTES from the source, in seconds. -/
def ACCESS_TOKEN_EXPIRE_SECONDS : Nat := 30 * 60

/-- AuthService.create_access_token: sets `exp = now + expires_delta`
(defaulting to 30 minutes) on the payload and signs it with the
process-wide secret key.  `data` holds the caller-supplied "sub" claim
(the login endpoint passes `data = {"sub": user.username}`). -/
def create_access_token (secretKey : Nat) (sub : Option String)
    (expiresDelta : Option Nat) (now : Nat) : Token :=
  let expire :=
    match expiresDelta with
    | some d => now + d
    | none => now + ACCESS_TOKEN_EXPIRE_SECONDS
  jwtEncode ⟨sub, expire⟩ secretKey

/-- AuthService.verify_token: decode with the secret key, return the "sub"
claim; any JWTError (bad signature, malformed, expired) and a missing
"sub" all yield `none` — the function never raises. -/
def verify_token (secretKey : Nat) (token : Token) (now : Nat) : Option String :=
  match jwtDecode token secretKey now with
  | Except.error _ => none
  | Except.ok payload =>
    match payload.sub with
    | none => none
    | some username => some username

/-! ## main.py, POST /productos handler -/

/-- Python str.lower(), character by character (the type strings compared
against are ASCII, where this agrees with Python). -/
def pyLower (s : String) : String :=
  ⟨s.data.map Char.toLower⟩

/-- The body of the `crear_producto` endpoint (main.py): variant-specific
null checks happen here, before any constructor runs; on success the
product is built and stored via `agregar_producto`.  Errors are the
HTTPException status and detail. -/
def crear_producto (s : TiendaService) (tipo nombre : String) (precio : ℚ)
    (stock : Int) (mesesGarantia : Option Int) (talla color : Option String)
    (freshId : Nat) : Except (Nat × String) Producto × TiendaService :=
  let tipoLower := pyLower tipo
  if tipoLower = "electronico" then
    match mesesGarantia with
    | none =>
      (Except.error (400, "meses_garantia es obligatorio para productos electrónicos"), s)
    | some g =>
      let producto := mkProductoElectronico freshId nombre precio stock (some g)
      (Except.ok producto, agregar_producto s producto)
  else if tipoLower = "ropa" then
    match talla, color with
    | some t, some c =>
      let producto := mkProductoRopa freshId nombre precio stock (some t) (some c)
      (Except.ok producto, agregar_producto s producto)
    | _, _ =>
      (Except.error (400, "talla y color son obligatorios para productos de ropa"), s)
  else if tipoLower = "generico" then
    let producto := mkProducto freshId nombre precio stock
    (Except.ok producto, agregar_producto s producto)
  else
    (Except.error (400, "Tipo de producto no válido. Usa generico, electronico o ropa."), s)

/-! ## Predicates and auxiliary definitions used by the statements -/

/-- Every product stored in the catalog has non-negative stock. -/
def StockNoNegativo (s : TiendaService) : Prop :=
  ∀ e ∈ s.productos, 0 ≤ e.2.stock

instance (s : TiendaService) : Decidable (StockNoNegativo s) :=
  List.decidableBAll _ s.productos

/-- Total quantity of the product `pid` requested across a list of line
items (an order built from a dict request holds it at most once). -/
def cantidadDe (items : List (Nat × Int)) (pid : Nat) : Int :=
  (items.map (fun it => if it.1 = pid then it.2 else 0)).sum

/-- Direct mutation of the shared product object's price attribute
(`producto.precio = nuevo`), the catalog price change the specification
talks about. -/
def setPrecio (catalogo : List (Nat × Producto)) (pid : Nat) (nuevo : ℚ) :
    List (Nat × Producto) :=
  match dictGet pid catalogo with
  | some p => dictSet pid { p with precio := nuevo } catalogo
  | none => catalogo

/-- Catalog obtained by applying, in order, the stock decrement of each of
the given line items (used to describe the partially-applied state a failed
`realizar_pedido` leaves behind). -/
def decrementa (catalogo : List (Nat × Producto)) (items : List (Nat × Int)) :
    List (Nat × Producto) :=
  items.foldl
    (fun cat it =>
      match dictGet it.1 cat with
      | some p => dictSet it.1 (p.actualizar_stock (-it.2)) cat
      | none => cat)
    catalogo

/-! ## Concrete sample data for counterexamples and witnesses -/

/-- Sample client user. -/
def anaCliente : Usuario :=
  ⟨1, "Ana", "ana@tienda.es", none, none, Rol.cliente, some "Calle 1"⟩

/-- Sample administrator user. -/
def rootAdmin : Usuario :=
  ⟨2, "Root", "root@tienda.es", none, none, Rol.administrador, none⟩

/-- Sample product with stock 5. -/
def prodAlfa : Producto := ⟨10, "Alfa", 5, 5, Variante.generico⟩

/-- Sample product with stock 1. -/
def prodBeta : Producto := ⟨11, "Beta", 2, 1, Variante.generico⟩

/-- Sample store state: one client, one administrator, two products. -/
def tiendaEjemplo : TiendaService :=
  ⟨[(1, anaCliente), (2, rootAdmin)], [(10, prodAlfa), (11, prodBeta)], []⟩

/-- Sample registered auth user with password "secreta" hashed at salt 0. -/
def bobUsuario : Usuario :=
  ⟨3, "bob", "bob@tienda.es", some "bob", some (hashpw "secreta" 0), Rol.base, none⟩

/-- Sample auth store containing exactly `bobUsuario`. -/
def authEjemplo : AuthService :=
  ⟨[(3, bobUsuario)], [("bob", bobUsuario)], [("bob@tienda.es", bobUsuario)]⟩

/-! ## Association-list lemmas -/

theorem dictGet_dictSet_self {α β : Type} [DecidableEq α] (k : α) (v : β) :
    ∀ l : List (α × β), dictGet k (dictSet k v l) = some v := by
  intro l
  induction l with
  | nil => simp [dictGet, dictSet]
  | cons hd tl ih =>
    obtain ⟨k', v'⟩ := hd
    by_cases h : k' = k
    · simp [dictGet, dictSet, h]
    · simp [dictGet, dictSet, h, ih]

theorem dictGet_dictSet_ne {α β : Type} [DecidableEq α] (k k' : α) (v : β)
    (hne : k' ≠ k) : ∀ l : List (α × β), dictGet k' (dictSet k v l) = dictGet k' l := by
  intro l
  induction l with
  | nil => simp [dictGet, dictSet, hne.symm]
  | cons hd tl ih =>
    obtain ⟨k'', v''⟩ := hd
    by_cases h : k'' = k
    · subst h
      simp [dictGet, dictSet, hne.symm]
    · simp only [dictSet, if_neg h]
      by_cases h' : k'' = k'
      · simp [dictGet, h']
      · simp [dictGet, h', ih]

/-- Membership view of `dictSet`: every entry of the updated list is either
the new binding or an entry of the original list. -/
theorem mem_dictSet {α β : Type} [DecidableEq α] (k : α) (v : β) :
    ∀ (l : List (α × β)) (e : α × β), e ∈ dictSet k v l → e = (k, v) ∨ e ∈ l := by
  intro l
  induction l with
  | nil => intro e he; simp [dictSet] at he; left; exact he
  | cons hd tl ih =>
    intro e he
    obtain ⟨k', v'⟩ := hd
    by_cases h : k' = k
    · simp [dictSet, h] at he
      rcases he with he | he
      · left; exact he
      · right; simp [he]
    · simp [dictSet, h] at he
      rcases he with he | he
      · right; simp [he]
      · rcases ih e he with h' | h'
        · left; exact h'
        · right; simp [h']

/-! ## Claim theorems -/

/-- C9: whenever `realizar_pedido` raises (unknown client, non-client
user, missing product, or insufficient stock), the list of stored orders
is unchanged — no `Pedido` is recorded for a failed request, even when
some stocks were already decremented before the failure. -/
theorem realizar_pedido_error_no_registra_pedido
    (s : TiendaService) (clienteId : Nat) (items : List (Nat × Int))
    (pedidoId fecha : Nat) (e : ValueError) (s' : TiendaService)
    (h : realizar_pedido s clienteId items pedidoId fecha = (Except.error e, s')) :
    s'.pedidos = s.pedidos := by
  unfold realizar_pedido at h
  split at h
  · injection h with h₁ h₂
    rw [← h₂]
  · split at h
    · split at h
      · injection h with h₁ h₂
        rw [← h₂]
      · simp at h
    · injection h with h₁ h₂
      rw [← h₂]

theorem realizar_pedido_error_no_registra_pedido_witness :
    ((realizar_pedido tiendaEjemplo 1 [(10, 2), (11, 3)] 99 0).2).pedidos
      = tiendaEjemplo.pedidos :=
  realizar_pedido_error_no_registra_pedido tiendaEjemplo 1 [(10, 2), (11, 3)] 99 0
    ⟨"No hay stock suficiente de Beta"⟩
    (realizar_pedido tiendaEjemplo 1 [(10, 2), (11, 3)] 99 0).2 rfl

/-- C10: a token correctly signed with the process key and not yet expired
whose payload carries no "sub" claim verifies to the invalid marker `none`
(same as an invalid token), not to a username and not to an exception. -/
theorem verify_token_sin_sub (secretKey d now t : Nat) (h : t ≤ now + d) :
    verify_token secretKey (create_access_token secretKey none (some d) now) t = none := by
  unfold verify_token create_access_token jwtEncode jwtDecode
  simp [Nat.not_lt.mpr h]

theorem verify_token_sin_sub_witness :
    verify_token 0 (create_access_token 0 none (some 10) 0) 5 = none :=
  verify_token_sin_sub 0 10 0 5 (by decide)

/-- C5 counterexample: `realizar_pedido` raises the very same error value
(`ValueError "Cliente no encontrado"`) for an id resolving to an
`Administrador` (id 2) as for an absent id (id 5) — there is no distinct
NotAClient error. -/
theorem realizar_pedido_mismo_error_cex :
    (realizar_pedido tiendaEjemplo 2 [(10, 1)] 99 0).1
        = Except.error ⟨"Cliente no encontrado"⟩
      ∧ (realizar_pedido tiendaEjemplo 5 [(10, 1)] 99 0).1
        = Except.error ⟨"Cliente no encontrado"⟩
      ∧ (realizar_pedido tiendaEjemplo 2 [(10, 1)] 99 0).1
        = (realizar_pedido tiendaEjemplo 5 [(10, 1)] 99 0).1 :=
  ⟨rfl, rfl, rfl⟩

/-- C5 amended: both client-resolution failures of `realizar_pedido` — an
absent client id and an id resolving to a non-`Cliente` user — raise the
same single error, `ValueError "Cliente no encontrado"`, leaving the state
unchanged; no distinct NotAClient error exists at this level. -/
theorem realizar_pedido_cliente_error
    (s : TiendaService) (clienteId : Nat) (items : List (Nat × Int)) (pedidoId fecha : Nat)
    (h : dictGet clienteId s.usuarios = none ∨
      ∃ u, dictGet clienteId s.usuarios = some u ∧ u.rol ≠ Rol.cliente) :
    realizar_pedido s clienteId items pedidoId fecha
      = (Except.error ⟨"Cliente no encontrado"⟩, s) := by
  unfold realizar_pedido
  rcases h with h | ⟨u, hu, hr⟩
  · rw [h]
  · rw [hu]
    simp only [if_neg hr]

theorem realizar_pedido_cliente_error_witness :
    realizar_pedido tiendaEjemplo 2 [(10, 1)] 98 7
      = (Except.error ⟨"Cliente no encontrado"⟩, tiendaEjemplo) :=
  realizar_pedido_cliente_error tiendaEjemplo 2 [(10, 1)] 98 7
    (Or.inr ⟨rootAdmin, rfl, by decide⟩)

/-- C8: the two failure modes of `authenticate_user` — unknown username,
and known username with mismatching password — produce the identical
external signal `none` (returned, not thrown), so the caller cannot tell
from the value which check failed. -/
theorem authenticate_user_fallo_uniforme
    (s₁ s₂ : AuthService) (u₁ p₁ u₂ p₂ : String) (user : Usuario) (hsh : Hash)
    (h₁ : dictGet u₁ s₁.usersByUsername = none)
    (h₂ : dictGet u₂ s₂.usersByUsername = some user)
    (h₃ : user.hashedPassword = some hsh)
    (h₄ : checkpw p₂ hsh = false) :
    authenticate_user s₁ u₁ p₁ = none ∧ authenticate_user s₂ u₂ p₂ = none ∧
      authenticate_user s₁ u₁ p₁ = authenticate_user s₂ u₂ p₂ := by
  have ha : authenticate_user s₁ u₁ p₁ = none := by
    unfold authenticate_user
    rw [h₁]
  have hb : authenticate_user s₂ u₂ p₂ = none := by
    unfold authenticate_user verify_password
    rw [h₂]
    simp [h₃, h₄]
  exact ⟨ha, hb, ha.trans hb.symm⟩

theorem authenticate_user_fallo_uniforme_witness :
    authenticate_user ⟨[], [], []⟩ "ana" "x" = none ∧
      authenticate_user authEjemplo "bob" "mala" = none ∧
      authenticate_user ⟨[], [], []⟩ "ana" "x" = authenticate_user authEjemplo "bob" "mala" :=
  authenticate_user_fallo_uniforme ⟨[], [], []⟩ authEjemplo "ana" "x" "bob" "mala"
    bobUsuario (hashpw "secreta" 0) rfl rfl rfl (by decide)

/-- C7: `create_user` fails (ValueError) whenever the requested username
is already a key of `users_by_username` or the requested email is already
a key of `users_by_email` — each an exact, case-sensitive dict lookup —
and on such a failure the store is left exactly as it was. -/
theorem create_user_duplicado
    (s : AuthService) (username email password : String) (freshId salt : Nat)
    (h : (dictGet username s.usersByUsername).isSome = true ∨
      (dictGet email s.usersByEmail).isSome = true) :
    ∃ msg : String,
      create_user s username email password freshId salt = (Except.error ⟨msg⟩, s) := by
  unfold create_user
  by_cases h' : (dictGet username s.usersByUsername).isSome = true
  · exact ⟨_, by rw [if_pos h']⟩
  · rcases h with h | h
    · exact absurd h h'
    · exact ⟨_, by rw [if_neg h', if_pos h]⟩

theorem create_user_duplicado_witness :
    ∃ msg : String,
      create_user authEjemplo "bob" "nuevo@tienda.es" "pw" 9 4
        = (Except.error ⟨msg⟩, authEjemplo) :=
  create_user_duplicado authEjemplo "bob" "nuevo@tienda.es" "pw" 9 4 (Or.inl rfl)

/-- Helper for C2: the order loop preserves non-negativity of every stock
in the catalog it returns, whether it ends in success or in an error,
because each decrement is guarded by `hay_stock`. -/
theorem pedidoLoop_stock_nonneg :
    ∀ (items : List (Nat × Int)) (cat : List (Nat × Producto)) (acc : List (Nat × Int)),
      (∀ e ∈ cat, 0 ≤ e.2.stock) →
      ∀ e ∈ (pedidoLoop cat acc items).2, 0 ≤ e.2.stock := by
  intro items
  induction items with
  | nil => intro cat acc h; simpa [pedidoLoop] using h
  | cons hd tl ih =>
    intro cat acc h
    obtain ⟨pid, cantidad⟩ := hd
    cases hp : dictGet pid cat with
    | none =>
      simp only [pedidoLoop, hp]
      exact h
    | some producto =>
      by_cases hs : producto.hay_stock cantidad
      · have hle : cantidad ≤ producto.stock := by
          have := hs
          unfold Producto.hay_stock at this
          exact of_decide_eq_true this
        have hnew : 0 ≤ (producto.actualizar_stock (-cantidad)).stock := by
          unfold Producto.actualizar_stock
          simp only
          omega
        have hcat' : ∀ e ∈ dictSet pid (producto.actualizar_stock (-cantidad)) cat,
            0 ≤ e.2.stock := by
          intro e he
          rcases mem_dictSet pid (producto.actualizar_stock (-cantidad)) cat e he with
            rfl | he'
          · exact hnew
          · exact h e he'
        have := ih (dictSet pid (producto.actualizar_stock (-cantidad)) cat)
          ((pid, cantidad) :: acc) hcat'
        simpa [pedidoLoop, hp, hs] using this
      · simp only [pedidoLoop, hp, if_neg hs]
        exact h

/-- C2: starting from a state where every stored product has non-negative
stock, any call to `realizar_pedido` — succeeding or failing — leaves
every stored product with non-negative stock, because each decrement is
guarded by the `hay_stock` check `stock >= cantidad`. -/
theorem realizar_pedido_stock_nonneg
    (s : TiendaService) (clienteId : Nat) (items : List (Nat × Int))
    (pedidoId fecha : Nat) (h : StockNoNegativo s) :
    StockNoNegativo (realizar_pedido s clienteId items pedidoId fecha).2 := by
  unfold StockNoNegativo at h ⊢
  unfold realizar_pedido
  split
  · exact h
  · split
    · have hl := pedidoLoop_stock_nonneg items s.productos [] h
      split
      · next heq =>
        rw [heq] at hl
        exact hl
      · next heq =>
        rw [heq] at hl
        exact hl
    · exact h

theorem realizar_pedido_stock_nonneg_witness :
    StockNoNegativo (realizar_pedido tiendaEjemplo 1 [(10, 2), (11, 3)] 99 0).2 :=
  realizar_pedido_stock_nonneg tiendaEjemplo 1 [(10, 2), (11, 3)] 99 0 (by decide)

/-- C6 counterexample: an expired token and a forged token yield the very
same result `none` from `verify_token` — there are no distinct TokenExpired
and TokenInvalid outcomes. -/
theorem verify_token_no_distingue_cex :
    verify_token 0 (create_access_token 0 (some "ana") (some 1800) 0) 1801 = none
      ∧ verify_token 0 (Token.malformed "forjado") 1801 = none
      ∧ verify_token 0 (create_access_token 0 (some "ana") (some 1800) 0) 1801
        = verify_token 0 (Token.malformed "forjado") 1801 :=
  ⟨rfl, rfl, rfl⟩

/-- C6 amended: a token issued for a username with ttl = 30 minutes
verifies to that username at every instant up to the expiry (jose accepts
the boundary instant); after the ttl elapses `verify_token` returns the
invalid marker `none`; a token signed with a different key and a malformed
or altered token also return `none` — the same marker in every failure
case, with no exception and no distinction between expiry and invalidity. -/
theorem verify_token_ciclo_vida (secretKey : Nat) (username : String) (now : Nat) :
    (∀ t, t ≤ now + 30 * 60 →
        verify_token secretKey
          (create_access_token secretKey (some username) (some (30 * 60)) now) t
          = some username)
      ∧ (∀ t, now + 30 * 60 < t →
        verify_token secretKey
          (create_access_token secretKey (some username) (some (30 * 60)) now) t
          = none)
      ∧ (∀ (k : Nat) (p : Payload) (t : Nat), k ≠ secretKey →
        verify_token secretKey (Token.signed k p) t = none)
      ∧ (∀ (d : String) (t : Nat), verify_token secretKey (Token.malformed d) t = none) := by
  refine ⟨?_, ?_, ?_, ?_⟩
  · intro t ht
    unfold verify_token create_access_token jwtEncode jwtDecode
    simp [Nat.not_lt.mpr ht]
  · intro t ht
    unfold verify_token create_access_token jwtEncode jwtDecode
    simp [ht]
  · intro k p t hk
    unfold verify_token jwtDecode
    simp [hk]
  · intro d t
    unfold verify_token jwtDecode
    simp

theorem verify_token_ciclo_vida_witness :
    verify_token 0 (create_access_token 0 (some "ana") (some 1800) 0) 1800 = some "ana"
      ∧ verify_token 0 (create_access_token 0 (some "ana") (some 1800) 0) 1801 = none
      ∧ verify_token 0 (Token.signed 1 ⟨some "eva", 9999⟩) 5 = none
      ∧ verify_token 0 (Token.malformed "basura") 5 = none :=
  ⟨(verify_token_ciclo_vida 0 "ana" 0).1 1800 (by decide),
   (verify_token_ciclo_vida 0 "ana" 0).2.1 1801 (by decide),
   (verify_token_ciclo_vida 0 "ana" 0).2.2.1 1 ⟨some "eva", 9999⟩ 5 (by decide),
   (verify_token_ciclo_vida 0 "ana" 0).2.2.2 "basura" 5⟩

/-- C4 counterexample: the constructors perform no validation — building
an electronic product with a null warranty, or an apparel product with
null size and color, succeeds and yields a product storing the nulls, with
no ValidationError. -/
theorem constructores_sin_validacion_cex :
    mkProductoElectronico 7 "Tele" 100 5 none
        = ⟨7, "Tele", 100, 5, Variante.electronico none⟩
      ∧ mkProductoRopa 8 "Camisa" 20 3 none none
        = ⟨8, "Camisa", 20, 3, Variante.ropa none none⟩ :=
  ⟨rfl, rfl⟩

/-- C4 amended: the variant null checks live in the HTTP handler
`crear_producto`, not in the constructors: a request for an electronic
product with null warranty months, or for an apparel product with null
size or null color, is rejected there with a 400 error before any product
is constructed or stored, leaving the catalog unchanged. -/
theorem crear_producto_valida_variantes
    (s : TiendaService) (tipo nombre : String) (precio : ℚ) (stock : Int)
    (mesesGarantia : Option Int) (talla color : Option String) (freshId : Nat)
    (h : (pyLower tipo = "electronico" ∧ mesesGarantia = none)
      ∨ (pyLower tipo = "ropa" ∧ (talla = none ∨ color = none))) :
    ∃ detail : String,
      crear_producto s tipo nombre precio stock mesesGarantia talla color freshId
        = (Except.error (400, detail), s) := by
  unfold crear_producto
  rcases h with ⟨ht, hm⟩ | ⟨ht, hc⟩
  · rw [ht, hm]
    exact ⟨_, rfl⟩
  · rw [ht]
    rcases hc with hc | hc
    · rw [hc]
      cases color with
      | none => exact ⟨_, rfl⟩
      | some c => exact ⟨_, rfl⟩
    · rw [hc]
      cases talla with
      | none => exact ⟨_, rfl⟩
      | some t => exact ⟨_, rfl⟩

theorem crear_producto_valida_variantes_witness :
    ∃ detail : String,
      crear_producto tiendaEjemplo "electronico" "Tele" 100 5 none none none 12
        = (Except.error (400, detail), tiendaEjemplo) :=
  crear_producto_valida_variantes tiendaEjemplo "electronico" "Tele" 100 5 none none none 12
    (Or.inl ⟨rfl, rfl⟩)

/-- C1 counterexample: a two-item order whose second line fails on stock
leaves the first product decremented — placing the order is not
all-or-nothing.  Product 10 starts with stock 5; after the failed call it
sits in the catalog with stock 3. -/
theorem realizar_pedido_partial_decrement_cex :
    realizar_pedido tiendaEjemplo 1 [(10, 2), (11, 3)] 99 0
        = (Except.error ⟨"No hay stock suficiente de Beta"⟩,
           { tiendaEjemplo with
               productos := [(10, { prodAlfa with stock := 3 }), (11, prodBeta)] })
      ∧ prodAlfa.stock = 5
      ∧ ({ prodAlfa with stock := 3 } : Producto).stock ≠ prodAlfa.stock :=
  ⟨rfl, rfl, by decide⟩

/-- Helper for C1: when the order loop fails, the catalog it leaves behind
is the original catalog with the decrements of some prefix of the line
items already applied. -/
theorem pedidoLoop_error_prefijo :
    ∀ (items : List (Nat × Int)) (cat : List (Nat × Producto)) (acc : List (Nat × Int))
      (e : ValueError) (cat' : List (Nat × Producto)),
      pedidoLoop cat acc items = (Except.error e, cat') →
      ∃ pref suff, items = pref ++ suff ∧ cat' = decrementa cat pref := by
  intro items
  induction items with
  | nil =>
    intro cat acc e cat' h
    simp [pedidoLoop] at h
  | cons hd tl ih =>
    intro cat acc e cat' h
    obtain ⟨pid, cantidad⟩ := hd
    cases hp : dictGet pid cat with
    | none =>
      simp only [pedidoLoop, hp] at h
      injection h with h₁ h₂
      exact ⟨[], (pid, cantidad) :: tl, rfl, by rw [← h₂]; rfl⟩
    | some producto =>
      by_cases hs : producto.hay_stock cantidad
      · simp only [pedidoLoop, hp, if_pos hs] at h
        rcases ih _ _ _ _ h with ⟨pref, suff, hitems, hcat⟩
        refine ⟨(pid, cantidad) :: pref, suff, by rw [hitems, List.cons_append], ?_⟩
        rw [hcat]
        simp [decrementa, hp]
      · simp only [pedidoLoop, hp, if_neg hs] at h
        injection h with h₁ h₂
        exact ⟨[], (pid, cantidad) :: tl, rfl, by rw [← h₂]; rfl⟩

/-- C1 amended: a failing `realizar_pedido` call is not all-or-nothing.
Its final catalog is the original catalog with the stock decrements of
some prefix of the line items (the ones validated before the failing item)
already applied; only when that prefix is empty are all stocks unchanged. -/
theorem realizar_pedido_decrementa_prefijo
    (s : TiendaService) (clienteId : Nat) (items : List (Nat × Int))
    (pedidoId fecha : Nat) (e : ValueError) (s' : TiendaService)
    (h : realizar_pedido s clienteId items pedidoId fecha = (Except.error e, s')) :
    ∃ pref suff, items = pref ++ suff ∧ s'.productos = decrementa s.productos pref := by
  unfold realizar_pedido at h
  split at h
  · injection h with h₁ h₂
    exact ⟨[], items, rfl, by rw [← h₂]; rfl⟩
  · split at h
    · split at h
      · rename_i e' cat' heq
        injection h with h₁ h₂
        rcases pedidoLoop_error_prefijo items s.productos [] e' cat' heq with
          ⟨pref, suff, hi, hc⟩
        refine ⟨pref, suff, hi, ?_⟩
        rw [← h₂]
        exact hc
      · simp at h
    · injection h with h₁ h₂
      exact ⟨[], items, rfl, by rw [← h₂]; rfl⟩

theorem realizar_pedido_decrementa_prefijo_witness :
    ∃ pref suff,
      ([(10, 2), (11, 3)] : List (Nat × Int)) = pref ++ suff
        ∧ ((realizar_pedido tiendaEjemplo 1 [(10, 2), (11, 3)] 99 0).2).productos
          = decrementa tiendaEjemplo.productos pref :=
  realizar_pedido_decrementa_prefijo tiendaEjemplo 1 [(10, 2), (11, 3)] 99 0
    ⟨"No hay stock suficiente de Beta"⟩
    (realizar_pedido tiendaEjemplo 1 [(10, 2), (11, 3)] 99 0).2 rfl

/-- Helper for C3: updating the price attribute of the product object
`pid` shifts a recomputed line-item total by exactly the price difference
times the total quantity of that product in the items. -/
theorem totalItems_dictSet_precio
    (cat : List (Nat × Producto)) (pid : Nat) (p : Producto) (nuevo : ℚ)
    (h : dictGet pid cat = some p) :
    ∀ items : List (Nat × Int),
      totalItems (dictSet pid { p with precio := nuevo } cat) items
        = totalItems cat items + (nuevo - p.precio) * (cantidadDe items pid : ℚ) := by
  intro items
  induction items with
  | nil => simp [totalItems, cantidadDe]
  | cons it rest ih =>
    obtain ⟨q, c⟩ := it
    simp only [totalItems, cantidadDe, List.map_cons, List.sum_cons] at ih ⊢
    by_cases hq : q = pid
    · subst hq
      have h₁ : precioDe (dictSet q { p with precio := nuevo } cat) q = nuevo := by
        unfold precioDe
        rw [dictGet_dictSet_self]
      have h₂ : precioDe cat q = p.precio := by
        unfold precioDe
        rw [h]
      rw [h₁, h₂, ih]
      simp only [if_pos rfl]
      push_cast
      ring
    · have h₁ : precioDe (dictSet pid { p with precio := nuevo } cat) q = precioDe cat q := by
        unfold precioDe
        rw [dictGet_dictSet_ne pid q _ hq]
      rw [h₁, ih]
      simp only [if_neg hq]
      push_cast
      ring

/-- C3: an order total is computed on demand from the live product price:
after mutating the catalog price of product `pid` to `nuevo`, the
recomputed total equals the old total shifted by the price difference
times the order's (frozen) quantity of that product — so it reflects the
price at the instant of computation, not the price at order time. -/
theorem calcular_total_precio_actual
    (ped : Pedido) (cat : List (Nat × Producto)) (pid : Nat) (p : Producto) (nuevo : ℚ)
    (h : dictGet pid cat = some p) :
    Pedido.calcular_total ped (setPrecio cat pid nuevo)
      = Pedido.calcular_total ped cat
        + (nuevo - p.precio) * (cantidadDe ped.productos pid : ℚ) := by
  unfold Pedido.calcular_total setPrecio
  rw [h]
  exact totalItems_dictSet_precio cat pid p nuevo h ped.productos

theorem calcular_total_precio_actual_witness :
    Pedido.calcular_total ⟨0, 0, 1, [(10, 2)]⟩ (setPrecio tiendaEjemplo.productos 10 7)
      = Pedido.calcular_total ⟨0, 0, 1, [(10, 2)]⟩ tiendaEjemplo.productos
        + (7 - prodAlfa.precio) * (cantidadDe [(10, 2)] 10 : ℚ) :=
  calcular_total_precio_actual ⟨0, 0, 1, [(10, 2)]⟩ tiendaEjemplo.productos 10 prodAlfa 7 rfl

end Tienda
